import Mathlib

/-!
# Verification of the lunar telemetry simulator

Shallow embedding of `src/simulator/lunar_simulator.py` and proofs about it.

The embedding is split in two layers, mirroring the source:
* the frame encoder/transmitter (`_pack_telemetry`, `_send_telemetry`),
  a pure computable function on integer samples;
* the telemetry model (`_generate_telemetry`) and the driver loop
  (`_simulation_loop`), real-valued because the source computes in
  floating point with `math.sin` / `math.cos`.

Python `int()` truncates a float toward zero; `pyInt` models this on `ℝ`.
Python `struct.pack` range-checks each field and raises on an
out-of-range value; `packSigned` / `packUnsigned` return `none` there.
-/

namespace LunarSim

/-- Truncation toward zero, the semantics of Python `int()` on a float. -/
noncomputable def pyInt (r : ℝ) : ℤ :=
  if 0 ≤ r then ⌊r⌋ else ⌈r⌉

/-- `FRAME_START_SYMBOL = 0x12` from the source. -/
def FRAME_START_SYMBOL : ℕ := 0x12

/-- `TELEMETRY_FRAME = 0x06` from the source. -/
def TELEMETRY_FRAME : ℕ := 0x06

/-- `TELEMETRY_FRAME_PAYLOAD_SIZE = 63` from the source. -/
def TELEMETRY_FRAME_PAYLOAD_SIZE : ℕ := 63

/-- Little-endian byte list of width `w` for a natural number. -/
def leBytes (w n : ℕ) : List ℕ :=
  (List.range w).map fun i => n / 256 ^ i % 256

/-- Value of a little-endian byte list. -/
def leVal (bs : List ℕ) : ℕ :=
  bs.foldr (fun b acc => b + 256 * acc) 0

/-- `struct.pack` of one signed field of `w` bytes: range-checked
two's-complement little-endian encoding; `none` models `struct.error`. -/
def packSigned (w : ℕ) (v : ℤ) : Option (List ℕ) :=
  if -(2 ^ (8 * w - 1)) ≤ v ∧ v < 2 ^ (8 * w - 1) then
    some (leBytes w (v % 2 ^ (8 * w)).toNat)
  else
    none

/-- `struct.pack` of one unsigned field of `w` bytes. -/
def packUnsigned (w : ℕ) (v : ℤ) : Option (List ℕ) :=
  if 0 ≤ v ∧ v < 2 ^ (8 * w) then
    some (leBytes w v.toNat)
  else
    none

/-- `struct.pack` of a `?` field: one byte, `0x00` or `0x01`, never fails. -/
def packBool (b : Bool) : List ℕ :=
  [if b then 1 else 0]

/-- The dictionary returned by `_generate_telemetry`, as a structure.
Numeric entries are Python ints (`ℤ`), the two health flags Python bools. -/
@[ext] structure TelemetrySample where
  icm_gyr_x : ℤ
  icm_gyr_y : ℤ
  icm_gyr_z : ℤ
  icm_acc_x : ℤ
  icm_acc_y : ℤ
  icm_acc_z : ℤ
  icm_temp : ℤ
  mmc_mag_x : ℤ
  mmc_mag_y : ℤ
  mmc_mag_z : ℤ
  mmc_temp : ℤ
  rdn_serial_dose : ℤ
  rdn_sen1_dose : ℤ
  rdn_sen2_dose : ℤ
  rdn_serial_intensity : ℤ
  rdn_sen1_intensity : ℤ
  rdn_sen2_intensity : ℤ
  rdn_temp : ℤ
  rdn_vdd : ℤ
  rdn_crystal_ok : Bool
  rdn_analog_ok : Bool
  encoder_sensor : ℤ
  hall_endstop : ℤ
  reflective_endstop : ℤ
  light_sensor : ℤ
  deriving DecidableEq

/-- Sequence a list of per-field encodings: concatenate the encoded
bytes, failing if any single field fails (the all-or-nothing behaviour
of one `struct.pack` call). -/
def seqChunks : List (Option (List ℕ)) → Option (List ℕ)
  | [] => some []
  | o :: rest => do
    let x ← o
    let xs ← seqChunks rest
    return x ++ xs

/-- The per-field encodings of `struct.pack("<3h 3h h 3i h 6I 2h 2? 3B H", ...)`
in the argument order of `_pack_telemetry` in the source. -/
def fieldChunks (d : TelemetrySample) : List (Option (List ℕ)) :=
  [packSigned 2 d.icm_gyr_x,
   packSigned 2 d.icm_gyr_y,
   packSigned 2 d.icm_gyr_z,
   packSigned 2 d.icm_acc_x,
   packSigned 2 d.icm_acc_y,
   packSigned 2 d.icm_acc_z,
   packSigned 2 d.icm_temp,
   packSigned 4 d.mmc_mag_x,
   packSigned 4 d.mmc_mag_y,
   packSigned 4 d.mmc_mag_z,
   packSigned 2 d.mmc_temp,
   packUnsigned 4 d.rdn_serial_dose,
   packUnsigned 4 d.rdn_sen1_dose,
   packUnsigned 4 d.rdn_sen2_dose,
   packUnsigned 4 d.rdn_serial_intensity,
   packUnsigned 4 d.rdn_sen1_intensity,
   packUnsigned 4 d.rdn_sen2_intensity,
   packSigned 2 d.rdn_temp,
   packSigned 2 d.rdn_vdd,
   some (packBool d.rdn_crystal_ok),
   some (packBool d.rdn_analog_ok),
   packUnsigned 1 d.encoder_sensor,
   packUnsigned 1 d.hall_endstop,
   packUnsigned 1 d.reflective_endstop,
   packUnsigned 2 d.light_sensor]

/-- `_pack_telemetry`: the single `struct.pack` call of the source;
`none` models the caught `struct.error` path (the function prints the
error and returns `None`). -/
def _pack_telemetry (d : TelemetrySample) : Option (List ℕ) :=
  seqChunks (fieldChunks d)

/-- `_send_telemetry` up to the datagram it hands to `sendto`: pack the
payload, return early on a falsy packing result, otherwise prepend the
two header bytes.  The network outcome itself is modelled in the loop. -/
def _send_telemetry (d : TelemetrySample) : Option (List ℕ) :=
  match _pack_telemetry d with
  | none => none
  | some p =>
    if p.isEmpty then none
    else some ([FRAME_START_SYMBOL, TELEMETRY_FRAME] ++ p)

/-- The `self.baseline` dictionary: per-channel noise magnitudes plus the
radiation base level.  Scenario selection in `main` scales some of the
noise magnitudes before the loop starts. -/
structure Baseline where
  gyro_noise : ℝ
  accel_noise : ℝ
  mag_noise : ℝ
  temp_variation : ℝ
  radiation_base : ℝ
  radiation_variation : ℝ

/-- The baseline values set in `__init__`. -/
noncomputable def initBaseline : Baseline :=
  { gyro_noise := 0.1
    accel_noise := 0.05
    mag_noise := 5.0
    temp_variation := 2.0
    radiation_base := 1000
    radiation_variation := 50 }

/-- One outcome of the internal random source for a single call of
`_generate_telemetry`: the values returned by each `random.gauss`,
`random.random` and `random.uniform` call, in source order. -/
structure Noise where
  g_gyr_x : ℝ
  g_gyr_y : ℝ
  g_gyr_z : ℝ
  g_acc_x : ℝ
  g_acc_y : ℝ
  g_acc_z : ℝ
  g_icm_temp : ℝ
  g_mmc_temp : ℝ
  g_dose_serial : ℝ
  g_dose_sen1 : ℝ
  g_dose_sen2 : ℝ
  g_rdn_temp : ℝ
  g_rdn_vdd : ℝ
  r_crystal : ℝ
  r_analog : ℝ
  u_encoder : ℝ
  r_hall : ℝ
  r_reflective : ℝ
  g_light : ℝ

/-- The support of the random source: `random.random()` yields values in
`[0, 1)` and `random.uniform(0, 255)` values in `[0, 255]`; the Gaussian
draws are unconstrained. -/
def NoiseSupport (n : Noise) : Prop :=
  0 ≤ n.r_crystal ∧ n.r_crystal < 1 ∧
  0 ≤ n.r_analog ∧ n.r_analog < 1 ∧
  0 ≤ n.r_hall ∧ n.r_hall < 1 ∧
  0 ≤ n.r_reflective ∧ n.r_reflective < 1 ∧
  0 ≤ n.u_encoder ∧ n.u_encoder ≤ 255

/-- The mutable simulation state of the loop: `self.mission_time`,
`self.orbit_phase`, `self.thermal_cycle`. -/
structure SimState where
  mission_time : ℝ
  orbit_phase : ℝ
  thermal_cycle : ℝ

/-- The state set in `__init__`: all three accumulators start at `0.0`. -/
noncomputable def initState : SimState := ⟨0, 0, 0⟩

/-- `_generate_telemetry`, line for line.  Each `int(...)` becomes
`pyInt`, each `math.sin`/`math.cos` the real function, each random draw
the corresponding `Noise` field.  (`g_acc_z` is the value drawn from
`gauss(0.001, accel_noise)`; the mean shift lives in the distribution,
not in the arithmetic.) -/
noncomputable def _generate_telemetry (b : Baseline) (s : SimState) (n : Noise) :
    TelemetrySample :=
  let radiation_multiplier : ℝ := 1.0 + 0.3 * Real.sin (s.orbit_phase * 2)
  { icm_gyr_x := pyInt (Real.sin s.orbit_phase * 10 + n.g_gyr_x * 100)
    icm_gyr_y := pyInt (Real.cos s.orbit_phase * 8 + n.g_gyr_y * 100)
    icm_gyr_z := pyInt (n.g_gyr_z * 100)
    icm_acc_x := pyInt (n.g_acc_x * 1000)
    icm_acc_y := pyInt (n.g_acc_y * 1000)
    icm_acc_z := pyInt (n.g_acc_z * 1000)
    icm_temp := pyInt (-10 + 15 * Real.sin s.thermal_cycle + n.g_icm_temp * 10)
    mmc_mag_x := pyInt (-25000 + 5000 * Real.sin s.orbit_phase)
    mmc_mag_y := pyInt (15000 + 3000 * Real.cos s.orbit_phase)
    mmc_mag_z := pyInt (45000 + 2000 * Real.sin (s.orbit_phase * 0.7))
    mmc_temp := pyInt (-5 + 10 * Real.sin (s.thermal_cycle + 0.5) + n.g_mmc_temp * 10)
    rdn_serial_dose := pyInt (b.radiation_base * radiation_multiplier + n.g_dose_serial)
    rdn_sen1_dose := pyInt (b.radiation_base * radiation_multiplier * 0.9 + n.g_dose_sen1)
    rdn_sen2_dose := pyInt (b.radiation_base * radiation_multiplier * 1.1 + n.g_dose_sen2)
    rdn_serial_intensity := pyInt (100 + 20 * Real.sin (s.orbit_phase * 3))
    rdn_sen1_intensity := pyInt (95 + 18 * Real.sin (s.orbit_phase * 3 + 0.2))
    rdn_sen2_intensity := pyInt (105 + 22 * Real.sin (s.orbit_phase * 3 + 0.4))
    rdn_temp := pyInt (20 + 5 * Real.sin (s.thermal_cycle + 1.0) + n.g_rdn_temp * 10)
    rdn_vdd := pyInt (3300 + n.g_rdn_vdd)
    rdn_crystal_ok := if n.r_crystal > 0.01 then true else false
    rdn_analog_ok := if n.r_analog > 0.005 then true else false
    encoder_sensor := pyInt n.u_encoder
    hall_endstop := if n.r_hall > 0.9 then 1 else 0
    reflective_endstop := if n.r_reflective > 0.95 then 1 else 0
    light_sensor := pyInt (1000 + 500 * Real.sin s.orbit_phase + n.g_light) }

/-- The state update of lines 84-87 of the loop body:
`mission_time += 1.0 / rate`, `orbit_phase += 0.01`,
`thermal_cycle += 0.05`. -/
noncomputable def updateState (rate : ℝ) (s : SimState) : SimState :=
  { mission_time := s.mission_time + 1.0 / rate
    orbit_phase := s.orbit_phase + 0.01
    thermal_cycle := s.thermal_cycle + 0.05 }

/-- What the loop prints to its observer on an error path. -/
inductive Report where
  | encodingError : Report
  | transmissionError : Report
  deriving DecidableEq

/-- The environment of one tick: the random outcome, whether
`socket.sendto` raises, and whether an external stop request is
delivered before the next iteration of the `while` loop. -/
structure TickEnv where
  noise : Noise
  sendFails : Bool
  stopRequested : Bool

/-- Observable loop state: the simulation state, the `self.running`
flag, whether the socket is open, the datagrams handed to `sendto`
so far, and the error reports printed so far. -/
structure LoopState where
  sim : SimState
  running : Bool
  socketOpen : Bool
  sent : List (List ℕ)
  reports : List Report

/-- The state after `start()` opened the socket and set
`self.running = True`, before the first loop iteration. -/
noncomputable def initLoop : LoopState :=
  { sim := initState
    running := true
    socketOpen := true
    sent := []
    reports := [] }

/-- One iteration of `_simulation_loop`, in source order: if `running`
is still set, generate a sample from the current state, pack and send
it (recording the datagram, or the report printed on a packing or
sending failure), then advance the state; a stop request delivered
during this tick clears `running` and closes the socket
(`stop()` does both). -/
noncomputable def tick (rate : ℝ) (e : TickEnv) (ls : LoopState) : LoopState :=
  if ls.running then
    let d := _generate_telemetry initBaseline ls.sim e.noise
    let ls1 :=
      match _send_telemetry d with
      | none => { ls with reports := ls.reports ++ [Report.encodingError] }
      | some frame =>
        if e.sendFails then { ls with reports := ls.reports ++ [Report.transmissionError] }
        else { ls with sent := ls.sent ++ [frame] }
    let ls2 := { ls1 with sim := updateState rate ls1.sim }
    if e.stopRequested then { ls2 with running := false, socketOpen := false } else ls2
  else ls

/-- The loop state after `k` iterations from the freshly started loop. -/
noncomputable def run (rate : ℝ) (env : ℕ → TickEnv) : ℕ → LoopState
  | 0 => initLoop
  | k + 1 => tick rate (env k) (run rate env k)

/-- `k`-fold application of the per-tick state update. -/
noncomputable def stateIter (rate : ℝ) : ℕ → SimState
  | 0 => initState
  | k + 1 => updateState rate (stateIter rate k)

/-- Bytes `off`, …, `off + w - 1` of a byte list, read as a
little-endian `w`-byte integer: the reader's side of the §6 table. -/
def readLE (f : List ℕ) (off w : ℕ) : ℕ :=
  leVal ((f.drop off).take w)

/-- The declared range of a `struct` `h` field (signed 16-bit). -/
def i16 (v : ℤ) : Prop := -(2 ^ 15) ≤ v ∧ v < 2 ^ 15

/-- The declared range of a `struct` `i` field (signed 32-bit). -/
def i32 (v : ℤ) : Prop := -(2 ^ 31) ≤ v ∧ v < 2 ^ 31

/-- The declared range of a `struct` `B` field (unsigned 8-bit). -/
def u8 (v : ℤ) : Prop := 0 ≤ v ∧ v < 2 ^ 8

/-- The declared range of a `struct` `H` field (unsigned 16-bit). -/
def u16 (v : ℤ) : Prop := 0 ≤ v ∧ v < 2 ^ 16

/-- The declared range of a `struct` `I` field (unsigned 32-bit). -/
def u32 (v : ℤ) : Prop := 0 ≤ v ∧ v < 2 ^ 32

/-- Every numeric field of the sample is representable in the bit width
and signedness declared for it in the `struct` format string / §6 table. -/
def InRange (d : TelemetrySample) : Prop :=
  i16 d.icm_gyr_x ∧ i16 d.icm_gyr_y ∧ i16 d.icm_gyr_z ∧
  i16 d.icm_acc_x ∧ i16 d.icm_acc_y ∧ i16 d.icm_acc_z ∧
  i16 d.icm_temp ∧
  i32 d.mmc_mag_x ∧ i32 d.mmc_mag_y ∧ i32 d.mmc_mag_z ∧
  i16 d.mmc_temp ∧
  u32 d.rdn_serial_dose ∧ u32 d.rdn_sen1_dose ∧ u32 d.rdn_sen2_dose ∧
  u32 d.rdn_serial_intensity ∧ u32 d.rdn_sen1_intensity ∧ u32 d.rdn_sen2_intensity ∧
  i16 d.rdn_temp ∧ i16 d.rdn_vdd ∧
  u8 d.encoder_sensor ∧ u8 d.hall_endstop ∧ u8 d.reflective_endstop ∧
  u16 d.light_sensor

instance (d : TelemetrySample) : Decidable (InRange d) := by
  unfold InRange i16 i32 u8 u16 u32
  infer_instance

/-- The byte chunks of a successfully packed sample, field by field. -/
def sampleChunks (d : TelemetrySample) : List (List ℕ) :=
  [leBytes 2 (d.icm_gyr_x % 2 ^ 16).toNat,
   leBytes 2 (d.icm_gyr_y % 2 ^ 16).toNat,
   leBytes 2 (d.icm_gyr_z % 2 ^ 16).toNat,
   leBytes 2 (d.icm_acc_x % 2 ^ 16).toNat,
   leBytes 2 (d.icm_acc_y % 2 ^ 16).toNat,
   leBytes 2 (d.icm_acc_z % 2 ^ 16).toNat,
   leBytes 2 (d.icm_temp % 2 ^ 16).toNat,
   leBytes 4 (d.mmc_mag_x % 2 ^ 32).toNat,
   leBytes 4 (d.mmc_mag_y % 2 ^ 32).toNat,
   leBytes 4 (d.mmc_mag_z % 2 ^ 32).toNat,
   leBytes 2 (d.mmc_temp % 2 ^ 16).toNat,
   leBytes 4 d.rdn_serial_dose.toNat,
   leBytes 4 d.rdn_sen1_dose.toNat,
   leBytes 4 d.rdn_sen2_dose.toNat,
   leBytes 4 d.rdn_serial_intensity.toNat,
   leBytes 4 d.rdn_sen1_intensity.toNat,
   leBytes 4 d.rdn_sen2_intensity.toNat,
   leBytes 2 (d.rdn_temp % 2 ^ 16).toNat,
   leBytes 2 (d.rdn_vdd % 2 ^ 16).toNat,
   packBool d.rdn_crystal_ok,
   packBool d.rdn_analog_ok,
   leBytes 1 d.encoder_sensor.toNat,
   leBytes 1 d.hall_endstop.toNat,
   leBytes 1 d.reflective_endstop.toNat,
   leBytes 2 d.light_sensor.toNat]

/-- Unsigned little-endian field at `off`, width `w`, per the §6 table. -/
def decodeU (f : List ℕ) (off w : ℕ) : ℤ :=
  (readLE f off w : ℤ)

/-- Signed (two's-complement) little-endian field at `off`, width `w`. -/
def decodeS (f : List ℕ) (off w : ℕ) : ℤ :=
  if readLE f off w < 2 ^ (8 * w - 1) then (readLE f off w : ℤ)
  else (readLE f off w : ℤ) - 2 ^ (8 * w)

/-- Single-byte boolean at `off`: `0x01` is true, anything else false. -/
def decodeFlag (f : List ℕ) (off : ℕ) : Bool :=
  readLE f off 1 == 1

/-- Decode a whole 65-byte frame at the offsets and widths of the §6
table (offsets include the 2-byte header). -/
def decodeFrame (f : List ℕ) : TelemetrySample :=
  { icm_gyr_x := decodeS f 2 2
    icm_gyr_y := decodeS f 4 2
    icm_gyr_z := decodeS f 6 2
    icm_acc_x := decodeS f 8 2
    icm_acc_y := decodeS f 10 2
    icm_acc_z := decodeS f 12 2
    icm_temp := decodeS f 14 2
    mmc_mag_x := decodeS f 16 4
    mmc_mag_y := decodeS f 20 4
    mmc_mag_z := decodeS f 24 4
    mmc_temp := decodeS f 28 2
    rdn_serial_dose := decodeU f 30 4
    rdn_sen1_dose := decodeU f 34 4
    rdn_sen2_dose := decodeU f 38 4
    rdn_serial_intensity := decodeU f 42 4
    rdn_sen1_intensity := decodeU f 46 4
    rdn_sen2_intensity := decodeU f 50 4
    rdn_temp := decodeS f 54 2
    rdn_vdd := decodeS f 56 2
    rdn_crystal_ok := decodeFlag f 58
    rdn_analog_ok := decodeFlag f 59
    encoder_sensor := decodeU f 60 1
    hall_endstop := decodeU f 61 1
    reflective_endstop := decodeU f 62 1
    light_sensor := decodeU f 63 2 }

/-- The all-zero sample (used as a concrete in-range witness). -/
def sampleZero : TelemetrySample :=
  ⟨0, 0, 0, 0, 0, 0, 0, 0, 0, 0, 0, 0, 0, 0, 0, 0, 0, 0, 0, false, false, 0, 0, 0, 0⟩

/-- A sample whose gyro-x field exceeds the `i16` range. -/
def sampleBad : TelemetrySample :=
  { sampleZero with icm_gyr_x := 40000 }

/-- The all-zero random outcome. -/
noncomputable def noiseZero : Noise :=
  ⟨0, 0, 0, 0, 0, 0, 0, 0, 0, 0, 0, 0, 0, 0, 0, 0, 0, 0, 0⟩

/-- A random outcome with an extreme accelerometer Gaussian draw
(`random.gauss(0, 0.05)` returning 100). -/
noncomputable def noiseAccBig : Noise :=
  { noiseZero with g_acc_x := 100 }

/-- All Gaussian draws of an outcome are bounded by `B` in absolute
value. -/
def GaussBounded (n : Noise) (B : ℝ) : Prop :=
  |n.g_gyr_x| ≤ B ∧ |n.g_gyr_y| ≤ B ∧ |n.g_gyr_z| ≤ B ∧
  |n.g_acc_x| ≤ B ∧ |n.g_acc_y| ≤ B ∧ |n.g_acc_z| ≤ B ∧
  |n.g_icm_temp| ≤ B ∧ |n.g_mmc_temp| ≤ B ∧
  |n.g_dose_serial| ≤ B ∧ |n.g_dose_sen1| ≤ B ∧ |n.g_dose_sen2| ≤ B ∧
  |n.g_rdn_temp| ≤ B ∧ |n.g_rdn_vdd| ≤ B ∧ |n.g_light| ≤ B

/-- A support-valid random outcome with an extreme supply-voltage
Gaussian draw (`random.gauss(0, 10)` returning 50000). -/
noncomputable def noiseVddBig : Noise :=
  { noiseZero with g_rdn_vdd := 50000 }

/-- The per-tick control flow in the order the spec describes it:
first advance simulated time and the phase accumulators, then invoke
the Model on the (now advanced) state, then encode and transmit, then
sleep.  Written to be compared against `tick`, which is the source's
order. -/
noncomputable def tickSpecOrder (rate : ℝ) (e : TickEnv) (ls : LoopState) : LoopState :=
  if ls.running then
    let s2 := updateState rate ls.sim
    let d := _generate_telemetry initBaseline s2 e.noise
    let ls1 :=
      match _send_telemetry d with
      | none => { ls with reports := ls.reports ++ [Report.encodingError] }
      | some frame =>
        if e.sendFails then { ls with reports := ls.reports ++ [Report.transmissionError] }
        else { ls with sent := ls.sent ++ [frame] }
    let ls2 := { ls1 with sim := s2 }
    if e.stopRequested then { ls2 with running := false, socketOpen := false } else ls2
  else ls

/-- The multiplicative radiation-belt factor as the claim words it:
derived from `sin(2 * orbit_phase)`. -/
noncomputable def beltFactor (s : SimState) : ℝ :=
  1.0 + 0.3 * Real.sin (2 * s.orbit_phase)

/-- The serial radiation intensity as the claim describes it: the belt
factor applied multiplicatively to the channel, before per-sensor
scaling and noise.  Written to be compared against the code's
intensity channel. -/
noncomputable def beltIntensitySerial (s : SimState) : ℤ :=
  pyInt (beltFactor s * (100 + 20 * Real.sin (3 * s.orbit_phase)))

lemma length_leBytes (w n : ℕ) : (leBytes w n).length = w := by
  simp [leBytes]

lemma length_packBool (b : Bool) : (packBool b).length = 1 := by
  cases b <;> rfl

lemma leBytes_succ (w n : ℕ) :
    leBytes (w + 1) n = n % 256 :: leBytes w (n / 256) := by
  unfold leBytes
  rw [List.range_succ_eq_map, List.map_cons, List.map_map]
  refine congrArg₂ _ (by norm_num) (List.map_congr_left fun i _ => ?_)
  simp only [Function.comp_apply, Nat.succ_eq_add_one]
  rw [Nat.div_div_eq_div_mul, ← pow_succ']

lemma leVal_cons (b : ℕ) (bs : List ℕ) : leVal (b :: bs) = b + 256 * leVal bs := rfl

lemma leVal_leBytes (w : ℕ) : ∀ n : ℕ, leVal (leBytes w n) = n % 256 ^ w := by
  induction w with
  | zero => intro n; simp [leBytes, leVal, Nat.mod_one]
  | succ w ih =>
    intro n
    rw [leBytes_succ, leVal_cons, ih, pow_succ', Nat.mod_mul]

lemma readLE_cons₂ (a b : ℕ) (f : List ℕ) (off w : ℕ) :
    readLE (a :: b :: f) (off + 2) w = readLE f off w := by
  simp [readLE]

lemma readLE_append (xs ys : List ℕ) (k w : ℕ) :
    readLE (xs ++ ys) (xs.length + k) w = readLE ys k w := by
  simp [readLE, List.drop_append]

lemma readLE_prefix (xs ys : List ℕ) :
    readLE (xs ++ ys) 0 xs.length = leVal xs := by
  simp [readLE, List.take_left]

/-- Reading a whole chunk of a concatenated chunk list at the offset
given by the lengths of the chunks before it recovers that chunk. -/
lemma readLE_join_get : ∀ (cs : List (List ℕ)) (k : ℕ) (h : k < cs.length),
    readLE cs.flatten (((cs.take k).map List.length).sum) (cs.get ⟨k, h⟩).length =
      leVal (cs.get ⟨k, h⟩) := by
  intro cs
  induction cs with
  | nil => intro k h; exact absurd h (by simp)
  | cons c cs ih =>
    intro k h
    cases k with
    | zero => simpa [List.flatten_cons] using readLE_prefix c cs.flatten
    | succ k =>
      have hk : k < cs.length := by simpa using h
      simp only [List.flatten_cons, List.take_succ_cons, List.map_cons, List.sum_cons,
        List.get_cons_succ]
      rw [readLE_append]
      exact ih k hk

lemma packSigned_two {v : ℤ} (h : i16 v) :
    packSigned 2 v = some (leBytes 2 (v % 2 ^ 16).toNat) :=
  if_pos ⟨h.1, h.2⟩

lemma packSigned_four {v : ℤ} (h : i32 v) :
    packSigned 4 v = some (leBytes 4 (v % 2 ^ 32).toNat) :=
  if_pos ⟨h.1, h.2⟩

lemma packUnsigned_one {v : ℤ} (h : u8 v) :
    packUnsigned 1 v = some (leBytes 1 v.toNat) :=
  if_pos ⟨h.1, h.2⟩

lemma packUnsigned_two {v : ℤ} (h : u16 v) :
    packUnsigned 2 v = some (leBytes 2 v.toNat) :=
  if_pos ⟨h.1, h.2⟩

lemma packUnsigned_four {v : ℤ} (h : u32 v) :
    packUnsigned 4 v = some (leBytes 4 v.toNat) :=
  if_pos ⟨h.1, h.2⟩

lemma seqChunks_map_some : ∀ cs : List (List ℕ),
    seqChunks (cs.map some) = some cs.flatten := by
  intro cs
  induction cs with
  | nil => rfl
  | cons c cs ih => simp [seqChunks, ih]

lemma fieldChunks_of_inRange {d : TelemetrySample} (h : InRange d) :
    fieldChunks d = (sampleChunks d).map some := by
  obtain ⟨h1, h2, h3, h4, h5, h6, h7, h8, h9, h10, h11, h12, h13, h14, h15, h16,
    h17, h18, h19, h20, h21, h22, h23⟩ := h
  simp only [fieldChunks, sampleChunks, List.map_cons, List.map_nil,
    packSigned_two h1, packSigned_two h2, packSigned_two h3,
    packSigned_two h4, packSigned_two h5, packSigned_two h6,
    packSigned_two h7, packSigned_four h8, packSigned_four h9,
    packSigned_four h10, packSigned_two h11,
    packUnsigned_four h12, packUnsigned_four h13, packUnsigned_four h14,
    packUnsigned_four h15, packUnsigned_four h16, packUnsigned_four h17,
    packSigned_two h18, packSigned_two h19,
    packUnsigned_one h20, packUnsigned_one h21, packUnsigned_one h22,
    packUnsigned_two h23]

/-- An in-range sample packs to the concatenation of its field chunks. -/
lemma pack_of_inRange {d : TelemetrySample} (h : InRange d) :
    _pack_telemetry d = some (sampleChunks d).flatten := by
  rw [_pack_telemetry, fieldChunks_of_inRange h, seqChunks_map_some]

/-- The packed payload of any sample is exactly 63 bytes. -/
lemma length_flatten_sampleChunks (d : TelemetrySample) :
    (sampleChunks d).flatten.length = 63 := by
  simp [sampleChunks, length_leBytes, length_packBool]

lemma seqChunks_cons_some {o : Option (List ℕ)} {rest : List (Option (List ℕ))}
    {p : List ℕ} (h : seqChunks (o :: rest) = some p) :
    o.isSome ∧ ∃ q, seqChunks rest = some q := by
  cases o with
  | none => simp [seqChunks] at h
  | some x =>
    cases hrest : seqChunks rest with
    | none => rw [seqChunks, hrest] at h; simp at h
    | some q => exact ⟨rfl, q, rfl⟩

lemma i16_of_packSigned_two {v : ℤ} (h : (packSigned 2 v).isSome) : i16 v := by
  unfold packSigned at h
  split_ifs at h with hc
  · exact ⟨hc.1, hc.2⟩
  · simp at h

lemma i32_of_packSigned_four {v : ℤ} (h : (packSigned 4 v).isSome) : i32 v := by
  unfold packSigned at h
  split_ifs at h with hc
  · exact ⟨hc.1, hc.2⟩
  · simp at h

lemma u8_of_packUnsigned_one {v : ℤ} (h : (packUnsigned 1 v).isSome) : u8 v := by
  unfold packUnsigned at h
  split_ifs at h with hc
  · exact ⟨hc.1, hc.2⟩
  · simp at h

lemma u16_of_packUnsigned_two {v : ℤ} (h : (packUnsigned 2 v).isSome) : u16 v := by
  unfold packUnsigned at h
  split_ifs at h with hc
  · exact ⟨hc.1, hc.2⟩
  · simp at h

lemma u32_of_packUnsigned_four {v : ℤ} (h : (packUnsigned 4 v).isSome) : u32 v := by
  unfold packUnsigned at h
  split_ifs at h with hc
  · exact ⟨hc.1, hc.2⟩
  · simp at h

/-- A sample that packs successfully has every field in range:
`struct.pack` checks every field. -/
lemma inRange_of_pack {d : TelemetrySample} {p : List ℕ}
    (h : _pack_telemetry d = some p) : InRange d := by
  unfold _pack_telemetry fieldChunks at h
  obtain ⟨k1, q, h⟩ := seqChunks_cons_some h
  obtain ⟨k2, q, h⟩ := seqChunks_cons_some h
  obtain ⟨k3, q, h⟩ := seqChunks_cons_some h
  obtain ⟨k4, q, h⟩ := seqChunks_cons_some h
  obtain ⟨k5, q, h⟩ := seqChunks_cons_some h
  obtain ⟨k6, q, h⟩ := seqChunks_cons_some h
  obtain ⟨k7, q, h⟩ := seqChunks_cons_some h
  obtain ⟨k8, q, h⟩ := seqChunks_cons_some h
  obtain ⟨k9, q, h⟩ := seqChunks_cons_some h
  obtain ⟨k10, q, h⟩ := seqChunks_cons_some h
  obtain ⟨k11, q, h⟩ := seqChunks_cons_some h
  obtain ⟨k12, q, h⟩ := seqChunks_cons_some h
  obtain ⟨k13, q, h⟩ := seqChunks_cons_some h
  obtain ⟨k14, q, h⟩ := seqChunks_cons_some h
  obtain ⟨k15, q, h⟩ := seqChunks_cons_some h
  obtain ⟨k16, q, h⟩ := seqChunks_cons_some h
  obtain ⟨k17, q, h⟩ := seqChunks_cons_some h
  obtain ⟨k18, q, h⟩ := seqChunks_cons_some h
  obtain ⟨k19, q, h⟩ := seqChunks_cons_some h
  obtain ⟨_, q, h⟩ := seqChunks_cons_some h
  obtain ⟨_, q, h⟩ := seqChunks_cons_some h
  obtain ⟨k22, q, h⟩ := seqChunks_cons_some h
  obtain ⟨k23, q, h⟩ := seqChunks_cons_some h
  obtain ⟨k24, q, h⟩ := seqChunks_cons_some h
  obtain ⟨k25, q, h⟩ := seqChunks_cons_some h
  exact ⟨i16_of_packSigned_two k1, i16_of_packSigned_two k2,
    i16_of_packSigned_two k3, i16_of_packSigned_two k4,
    i16_of_packSigned_two k5, i16_of_packSigned_two k6,
    i16_of_packSigned_two k7, i32_of_packSigned_four k8,
    i32_of_packSigned_four k9, i32_of_packSigned_four k10,
    i16_of_packSigned_two k11, u32_of_packUnsigned_four k12,
    u32_of_packUnsigned_four k13, u32_of_packUnsigned_four k14,
    u32_of_packUnsigned_four k15, u32_of_packUnsigned_four k16,
    u32_of_packUnsigned_four k17, i16_of_packSigned_two k18,
    i16_of_packSigned_two k19, u8_of_packUnsigned_one k22,
    u8_of_packUnsigned_one k23, u8_of_packUnsigned_one k24,
    u16_of_packUnsigned_two k25⟩

/-- `_pack_telemetry` succeeds exactly on in-range samples. -/
lemma pack_isSome_iff (d : TelemetrySample) :
    (_pack_telemetry d).isSome ↔ InRange d := by
  constructor
  · intro h
    obtain ⟨p, hp⟩ := Option.isSome_iff_exists.mp h
    exact inRange_of_pack hp
  · intro h
    rw [pack_of_inRange h]
    rfl

lemma cast_pow_helper (w : ℕ) : (((2 : ℕ) ^ w : ℕ) : ℤ) = 2 ^ w := by
  push_cast
  rfl

lemma pow_256_eq (w : ℕ) : (256 : ℕ) ^ w = 2 ^ (8 * w) := by
  rw [show (256 : ℕ) = 2 ^ 8 by norm_num, ← pow_mul]

lemma leVal_leBytes_of_lt {w n : ℕ} (h : n < 2 ^ (8 * w)) :
    leVal (leBytes w n) = n := by
  rw [leVal_leBytes, pow_256_eq, Nat.mod_eq_of_lt h]

lemma toNat_emod_lt (w : ℕ) (v : ℤ) : (v % 2 ^ (8 * w)).toNat < 2 ^ (8 * w) := by
  have hpos : (0 : ℤ) < 2 ^ (8 * w) := by positivity
  have h1 : v % 2 ^ (8 * w) < 2 ^ (8 * w) := Int.emod_lt_of_pos v (by positivity)
  have h2 : (0 : ℤ) ≤ v % 2 ^ (8 * w) := Int.emod_nonneg v (by positivity)
  have hc := cast_pow_helper (8 * w)
  omega

lemma decodeS_recover {w : ℕ} (hw : 1 ≤ w) {v : ℤ}
    (h1 : -(2 ^ (8 * w - 1)) ≤ v) (h2 : v < 2 ^ (8 * w - 1))
    {f : List ℕ} {off : ℕ}
    (hr : readLE f off w = leVal (leBytes w (v % 2 ^ (8 * w)).toNat)) :
    decodeS f off w = v := by
  have hr2 : readLE f off w = (v % 2 ^ (8 * w)).toNat := by
    rw [hr, leVal_leBytes_of_lt (toNat_emod_lt w v)]
  have hsplit : (2 : ℤ) ^ (8 * w) = 2 ^ (8 * w - 1) * 2 := by
    rw [← pow_succ]
    congr 1
    omega
  have hpos : (0 : ℤ) < 2 ^ (8 * w) := by positivity
  have hlo : (0 : ℤ) < 2 ^ (8 * w - 1) := by positivity
  have hc1 := cast_pow_helper (8 * w - 1)
  have hc2 := cast_pow_helper (8 * w)
  rcases le_or_lt 0 v with hv | hv
  · have hmod : v % 2 ^ (8 * w) = v := Int.emod_eq_of_lt hv (by omega)
    unfold decodeS
    simp only [hr2, hmod]
    rw [if_pos (by omega)]
    omega
  · have hmod : v % 2 ^ (8 * w) = v + 2 ^ (8 * w) := by
      have hswap : v % 2 ^ (8 * w) = (v + 2 ^ (8 * w) * 1) % 2 ^ (8 * w) :=
        (Int.add_mul_emod_self_left v (2 ^ (8 * w)) 1).symm
      rw [hswap, mul_one, Int.emod_eq_of_lt (by omega) (by omega)]
    unfold decodeS
    simp only [hr2, hmod]
    rw [if_neg (by omega)]
    omega

lemma toNat_lt_unsigned {w : ℕ} {v : ℤ} (h0 : 0 ≤ v) (h : v < 2 ^ (8 * w)) :
    v.toNat < 2 ^ (8 * w) := by
  have hc := cast_pow_helper (8 * w)
  omega

lemma decodeU_recover {w : ℕ} {v : ℤ} (h1 : 0 ≤ v) (h2 : v < 2 ^ (8 * w))
    {f : List ℕ} {off : ℕ} (hr : readLE f off w = leVal (leBytes w v.toNat)) :
    decodeU f off w = v := by
  have hc := cast_pow_helper (8 * w)
  have hr2 : readLE f off w = v.toNat := by
    rw [hr, leVal_leBytes_of_lt (toNat_lt_unsigned h1 h2)]
  unfold decodeU
  simp only [hr2]
  omega

lemma decodeFlag_recover {b : Bool} {f : List ℕ} {off : ℕ}
    (hr : readLE f off 1 = leVal (packBool b)) :
    decodeFlag f off = b := by
  cases b <;> simp [decodeFlag, hr, packBool, leVal]

set_option maxHeartbeats 6000000 in
/-- The frame of an in-range sample, decoded with the §6 table,
reproduces every field of the sample. -/
lemma decodeFrame_frame (d : TelemetrySample) (h : InRange d) :
    decodeFrame (FRAME_START_SYMBOL :: TELEMETRY_FRAME :: (sampleChunks d).flatten) = d := by
  obtain ⟨h1, h2, h3, h4, h5, h6, h7, h8, h9, h10, h11, h12, h13, h14, h15, h16,
    h17, h18, h19, h20, h21, h22, h23⟩ := h
  apply TelemetrySample.ext
  · exact decodeS_recover (by norm_num) h1.1 h1.2 rfl
  · exact decodeS_recover (by norm_num) h2.1 h2.2 rfl
  · exact decodeS_recover (by norm_num) h3.1 h3.2 rfl
  · exact decodeS_recover (by norm_num) h4.1 h4.2 rfl
  · exact decodeS_recover (by norm_num) h5.1 h5.2 rfl
  · exact decodeS_recover (by norm_num) h6.1 h6.2 rfl
  · exact decodeS_recover (by norm_num) h7.1 h7.2 rfl
  · exact decodeS_recover (by norm_num) h8.1 h8.2 rfl
  · exact decodeS_recover (by norm_num) h9.1 h9.2 rfl
  · exact decodeS_recover (by norm_num) h10.1 h10.2 rfl
  · exact decodeS_recover (by norm_num) h11.1 h11.2 rfl
  · exact decodeU_recover h12.1 h12.2 rfl
  · exact decodeU_recover h13.1 h13.2 rfl
  · exact decodeU_recover h14.1 h14.2 rfl
  · exact decodeU_recover h15.1 h15.2 rfl
  · exact decodeU_recover h16.1 h16.2 rfl
  · exact decodeU_recover h17.1 h17.2 rfl
  · exact decodeS_recover (by norm_num) h18.1 h18.2 rfl
  · exact decodeS_recover (by norm_num) h19.1 h19.2 rfl
  · exact decodeFlag_recover (b := d.rdn_crystal_ok) rfl
  · exact decodeFlag_recover (b := d.rdn_analog_ok) rfl
  · exact decodeU_recover h20.1 h20.2 rfl
  · exact decodeU_recover h21.1 h21.2 rfl
  · exact decodeU_recover h22.1 h22.2 rfl
  · exact decodeU_recover h23.1 h23.2 rfl

lemma flatten_sampleChunks_ne_nil (d : TelemetrySample) :
    (sampleChunks d).flatten ≠ [] := by
  intro he
  have := length_flatten_sampleChunks d
  rw [he] at this
  simp at this

/-- For an in-range sample the datagram handed to `sendto` is the
two header bytes followed by the packed payload. -/
lemma send_of_inRange {d : TelemetrySample} (h : InRange d) :
    _send_telemetry d =
      some (FRAME_START_SYMBOL :: TELEMETRY_FRAME :: (sampleChunks d).flatten) := by
  unfold _send_telemetry
  rw [pack_of_inRange h]
  simp only [List.isEmpty_eq_true, flatten_sampleChunks_ne_nil d, if_false]
  rfl

lemma send_none_of_pack_none {d : TelemetrySample}
    (h : _pack_telemetry d = none) : _send_telemetry d = none := by
  unfold _send_telemetry
  rw [h]

/-- C1: For every TelemetrySample whose fields are in their declared
ranges, the transmitted frame is exactly 65 bytes: a 2-byte header
followed by a 63-byte payload whose fields appear in the fixed order of
the section-6 table, encoded as fixed-width little-endian integers, with
the two health flags encoded as single bytes 0x00/0x01.  (The layout is
expressed by decoding the frame at the offsets and widths of the §6
table and recovering every field, and by the explicit flag bytes.) -/
theorem C1_frame_65_bytes_section6_layout (d : TelemetrySample) (h : InRange d) :
    ∃ f payload, _send_telemetry d = some f ∧
      f = [FRAME_START_SYMBOL, TELEMETRY_FRAME] ++ payload ∧
      payload.length = 63 ∧ f.length = 65 ∧
      decodeFrame f = d ∧
      f[58]? = some (if d.rdn_crystal_ok then 1 else 0) ∧
      f[59]? = some (if d.rdn_analog_ok then 1 else 0) := by
  refine ⟨_, (sampleChunks d).flatten, send_of_inRange h, rfl,
    length_flatten_sampleChunks d, ?_, decodeFrame_frame d h, ?_, ?_⟩
  · simp [length_flatten_sampleChunks d]
  · rfl
  · rfl

/-- Witness for C1 at the all-zero sample. -/
theorem C1_witness :
    InRange sampleZero ∧
      ∃ f payload, _send_telemetry sampleZero = some f ∧
        f = [FRAME_START_SYMBOL, TELEMETRY_FRAME] ++ payload ∧
        payload.length = 63 ∧ f.length = 65 ∧
        decodeFrame f = sampleZero ∧
        f[58]? = some (if sampleZero.rdn_crystal_ok then 1 else 0) ∧
        f[59]? = some (if sampleZero.rdn_analog_ok then 1 else 0) :=
  ⟨by decide, C1_frame_65_bytes_section6_layout sampleZero (by decide)⟩

/-- C5: For every transmitted frame, regardless of the payload content,
byte 0 is 0x12 (start marker) and byte 1 is 0x06 (telemetry frame type). -/
theorem C5_header_bytes (d : TelemetrySample) (f : List ℕ)
    (h : _send_telemetry d = some f) :
    f[0]? = some 0x12 ∧ f[1]? = some 0x06 := by
  by_cases hin : InRange d
  · rw [send_of_inRange hin] at h
    obtain rfl :
        FRAME_START_SYMBOL :: TELEMETRY_FRAME :: (sampleChunks d).flatten = f :=
      Option.some.inj h
    exact ⟨rfl, rfl⟩
  · have hnone : _pack_telemetry d = none :=
      Option.not_isSome_iff_eq_none.mp (by rw [pack_isSome_iff]; exact hin)
    rw [send_none_of_pack_none hnone] at h
    exact absurd h (by simp)

/-- Witness for C5 at the all-zero sample. -/
theorem C5_witness :
    (_send_telemetry sampleZero =
      some (FRAME_START_SYMBOL :: TELEMETRY_FRAME :: (sampleChunks sampleZero).flatten)) ∧
    ((FRAME_START_SYMBOL :: TELEMETRY_FRAME :: (sampleChunks sampleZero).flatten)[0]? =
        some 0x12 ∧
      (FRAME_START_SYMBOL :: TELEMETRY_FRAME :: (sampleChunks sampleZero).flatten)[1]? =
        some 0x06) :=
  ⟨send_of_inRange (by decide),
    C5_header_bytes sampleZero _ (send_of_inRange (by decide))⟩

/-- C10: When packing a sample fails (the encoder returns no payload),
the transmitter sends nothing at all for that tick: no header-only or
partial datagram is ever put on the wire, so every datagram actually
sent carries the complete 63-byte payload. -/
theorem C10_no_partial_datagram (d : TelemetrySample) :
    (_pack_telemetry d = none → _send_telemetry d = none) ∧
    (∀ f, _send_telemetry d = some f →
      ∃ p, _pack_telemetry d = some p ∧ p.length = 63 ∧
        f = [FRAME_START_SYMBOL, TELEMETRY_FRAME] ++ p) := by
  constructor
  · exact send_none_of_pack_none
  · intro f hf
    by_cases hin : InRange d
    · rw [send_of_inRange hin] at hf
      obtain rfl :
          FRAME_START_SYMBOL :: TELEMETRY_FRAME :: (sampleChunks d).flatten = f :=
        Option.some.inj hf
      exact ⟨(sampleChunks d).flatten, pack_of_inRange hin,
        length_flatten_sampleChunks d, rfl⟩
    · have hnone : _pack_telemetry d = none :=
        Option.not_isSome_iff_eq_none.mp (by rw [pack_isSome_iff]; exact hin)
      rw [send_none_of_pack_none hnone] at hf
      exact absurd hf (by simp)

/-- Witness for C10 at the out-of-range sample: packing fails and
nothing is sent. -/
theorem C10_witness :
    (_pack_telemetry sampleBad = none) ∧ (_send_telemetry sampleBad = none) :=
  ⟨by decide, (C10_no_partial_datagram sampleBad).1 (by decide)⟩

lemma pyInt_intCast (m : ℤ) : pyInt (m : ℝ) = m := by
  unfold pyInt
  split_ifs <;> simp

lemma pyInt_le {r : ℝ} {m : ℤ} (h : r ≤ (m : ℝ)) : pyInt r ≤ m := by
  unfold pyInt
  split_ifs with h0
  · simpa using Int.floor_mono h
  · exact Int.ceil_le.mpr h

lemma le_pyInt {r : ℝ} {m : ℤ} (h : (m : ℝ) ≤ r) : m ≤ pyInt r := by
  unfold pyInt
  split_ifs with h0
  · exact Int.le_floor.mpr h
  · simpa using Int.ceil_mono h

lemma noiseSupport_noiseZero : NoiseSupport noiseZero := by
  refine ⟨le_refl _, ?_, le_refl _, ?_, le_refl _, ?_, le_refl _, ?_, le_refl _, ?_⟩ <;>
    norm_num [noiseZero]

lemma noiseSupport_noiseAccBig : NoiseSupport noiseAccBig :=
  noiseSupport_noiseZero

/-- With the extreme accelerometer draw the generated sample's
`icm_acc_x` is 100000, far outside the `i16` range. -/
lemma acc_x_noiseAccBig (s : SimState) :
    (_generate_telemetry initBaseline s noiseAccBig).icm_acc_x = 100000 := by
  show pyInt (noiseAccBig.g_acc_x * 1000) = 100000
  rw [show noiseAccBig.g_acc_x * 1000 = ((100000 : ℤ) : ℝ) by
    norm_num [noiseAccBig, noiseZero]]
  exact pyInt_intCast 100000

lemma not_inRange_noiseAccBig (s : SimState) :
    ¬ InRange (_generate_telemetry initBaseline s noiseAccBig) := by
  intro h
  have hacc := h.2.2.2.1
  rw [acc_x_noiseAccBig s] at hacc
  have := hacc.2
  norm_num at this

/-- C4 counterexample: the claim "encoding never rejects a sample: for
every TelemetrySample produced by the Model, including one with a field
outside its declared bit width, the encoder truncates/saturates the
offending value and still produces a frame" is false: at the initial
state, for a support-valid random outcome whose accelerometer Gaussian
draw is 100, the generated sample fails to pack and no frame at all is
produced. -/
theorem C4_counterexample :
    NoiseSupport noiseAccBig ∧
      _send_telemetry (_generate_telemetry initBaseline initState noiseAccBig) = none := by
  refine ⟨noiseSupport_noiseAccBig, send_none_of_pack_none ?_⟩
  exact Option.not_isSome_iff_eq_none.mp (by
    rw [pack_isSome_iff]
    exact not_inRange_noiseAccBig initState)

/-- C4 amended: encoding rejects rather than truncates.  A sample with
any field outside its declared bit width fails to pack (the packing step
returns nothing) and no datagram is sent for that tick, while a sample
with all fields in range always produces a frame. -/
theorem C4_amended_reject_out_of_range (d : TelemetrySample) :
    (¬ InRange d → _send_telemetry d = none) ∧
    (InRange d → ∃ f, _send_telemetry d = some f) := by
  constructor
  · intro hin
    exact send_none_of_pack_none
      (Option.not_isSome_iff_eq_none.mp (by rw [pack_isSome_iff]; exact hin))
  · intro hin
    exact ⟨_, send_of_inRange hin⟩

/-- Witness for the amended C4 at the out-of-range sample. -/
theorem C4_amended_witness :
    (¬ InRange sampleBad) ∧ _send_telemetry sampleBad = none :=
  ⟨by decide, (C4_amended_reject_out_of_range sampleBad).1 (by decide)⟩

lemma tick_not_running (rate : ℝ) (e : TickEnv) (ls : LoopState)
    (h : ls.running = false) : tick rate e ls = ls := by
  simp [tick, h]

lemma tick_sim (rate : ℝ) (e : TickEnv) (ls : LoopState)
    (hrun : ls.running = true) :
    (tick rate e ls).sim = updateState rate ls.sim := by
  obtain ⟨nz, sf, st⟩ := e
  cases hsend : _send_telemetry (_generate_telemetry initBaseline ls.sim nz) <;>
    cases sf <;> cases st <;> simp [tick, hrun, hsend]

lemma tick_stop_fields (rate : ℝ) (e : TickEnv) (ls : LoopState)
    (hrun : ls.running = true) (hstop : e.stopRequested = true) :
    (tick rate e ls).running = false ∧ (tick rate e ls).socketOpen = false := by
  obtain ⟨nz, sf, st⟩ := e
  cases st
  · simp at hstop
  · cases hsend : _send_telemetry (_generate_telemetry initBaseline ls.sim nz) <;>
      cases sf <;> simp [tick, hrun, hsend]

lemma tick_nostop_running (rate : ℝ) (e : TickEnv) (ls : LoopState)
    (hrun : ls.running = true) (hstop : e.stopRequested = false) :
    (tick rate e ls).running = true := by
  obtain ⟨nz, sf, st⟩ := e
  cases st
  · cases hsend : _send_telemetry (_generate_telemetry initBaseline ls.sim nz) <;>
      cases sf <;> simp [tick, hrun, hsend]
  · simp at hstop

/-- Once the loop has stopped it never changes again. -/
lemma run_stable (rate : ℝ) (env : ℕ → TickEnv) (j : ℕ)
    (h : (run rate env j).running = false) :
    ∀ m, j ≤ m → run rate env m = run rate env j := by
  intro m hm
  induction m with
  | zero =>
    have : j = 0 := Nat.le_zero.mp hm
    rw [this]
  | succ m ih =>
    rcases Nat.lt_or_ge j (m + 1) with hlt | hge
    · have hj : j ≤ m := Nat.lt_succ_iff.mp hlt
      have heq := ih hj
      show tick rate (env m) (run rate env m) = run rate env j
      rw [heq, tick_not_running _ _ _ h]
    · have : j = m + 1 := le_antisymm hm hge
      rw [this]

/-- A stopped loop has a closed socket (`stop()` does both). -/
lemma run_closed_of_stopped (rate : ℝ) (env : ℕ → TickEnv) :
    ∀ k, (run rate env k).running = false → (run rate env k).socketOpen = false := by
  intro k
  induction k with
  | zero => intro h; simp [run, initLoop] at h
  | succ k ih =>
    intro h
    by_cases hr : (run rate env k).running = true
    · by_cases hst : (env k).stopRequested = true
      · exact (tick_stop_fields rate (env k) _ hr hst).2
      · have := tick_nostop_running rate (env k) _ hr (Bool.not_eq_true _ |>.mp hst)
        rw [show run rate env (k + 1) = tick rate (env k) (run rate env k) from rfl] at h
        rw [this] at h
        simp at h
    · have hr2 : (run rate env k).running = false := Bool.not_eq_true _ |>.mp hr
      show (tick rate (env k) (run rate env k)).socketOpen = false
      rw [tick_not_running _ _ _ hr2]
      exact ih hr2

/-- C6: On every tick, mission_time increases by exactly 1/rate,
orbit_phase increases by its fixed per-tick increment (0.01), and
thermal_cycle increases by its fixed per-tick increment (0.05); the
phase increments do not depend on rate, and no other SimulationState
field changes (the three equations cover the whole state). -/
theorem C6_per_tick_state_update (rate : ℝ) (e : TickEnv) (ls : LoopState)
    (hrun : ls.running = true) :
    (tick rate e ls).sim.mission_time = ls.sim.mission_time + 1 / rate ∧
    (tick rate e ls).sim.orbit_phase = ls.sim.orbit_phase + 0.01 ∧
    (tick rate e ls).sim.thermal_cycle = ls.sim.thermal_cycle + 0.05 ∧
    ∀ rate2 : ℝ,
      (tick rate2 e ls).sim.orbit_phase = (tick rate e ls).sim.orbit_phase ∧
      (tick rate2 e ls).sim.thermal_cycle = (tick rate e ls).sim.thermal_cycle := by
  rw [tick_sim rate e ls hrun]
  refine ⟨by norm_num [updateState], rfl, rfl, ?_⟩
  intro rate2
  rw [tick_sim rate2 e ls hrun]
  exact ⟨rfl, rfl⟩

/-- Witness for C6 on the first tick of a run at rate 1. -/
theorem C6_witness :
    (initLoop.running = true) ∧
    ((tick 1 ⟨noiseZero, false, false⟩ initLoop).sim.mission_time =
        initLoop.sim.mission_time + 1 / 1 ∧
      (tick 1 ⟨noiseZero, false, false⟩ initLoop).sim.orbit_phase =
        initLoop.sim.orbit_phase + 0.01 ∧
      (tick 1 ⟨noiseZero, false, false⟩ initLoop).sim.thermal_cycle =
        initLoop.sim.thermal_cycle + 0.05 ∧
      ∀ rate2 : ℝ,
        (tick rate2 ⟨noiseZero, false, false⟩ initLoop).sim.orbit_phase =
          (tick 1 ⟨noiseZero, false, false⟩ initLoop).sim.orbit_phase ∧
        (tick rate2 ⟨noiseZero, false, false⟩ initLoop).sim.thermal_cycle =
          (tick 1 ⟨noiseZero, false, false⟩ initLoop).sim.thermal_cycle) :=
  ⟨rfl, C6_per_tick_state_update 1 ⟨noiseZero, false, false⟩ initLoop rfl⟩

/-- C8: A transmission failure on a tick is reported to the observer and
the loop proceeds to the next tick with its state advanced as normal:
neither an encoding failure nor a transmission failure is fatal, and a
single lost frame never halts the simulator.  (`running` stays true, the
state advances exactly as on a successful tick, and the failure is
appended to the reports.) -/
theorem C8_failures_reported_not_fatal (rate : ℝ) (e : TickEnv) (ls : LoopState)
    (hrun : ls.running = true) (hstop : e.stopRequested = false) :
    (tick rate e ls).running = true ∧
    (tick rate e ls).sim = updateState rate ls.sim ∧
    (e.sendFails = true →
      (_send_telemetry (_generate_telemetry initBaseline ls.sim e.noise)).isSome →
        (tick rate e ls).reports = ls.reports ++ [Report.transmissionError] ∧
        (tick rate e ls).sent = ls.sent) ∧
    (_send_telemetry (_generate_telemetry initBaseline ls.sim e.noise) = none →
      (tick rate e ls).reports = ls.reports ++ [Report.encodingError] ∧
      (tick rate e ls).sent = ls.sent) := by
  obtain ⟨nz, sf, st⟩ := e
  cases st
  · refine ⟨tick_nostop_running rate _ ls hrun rfl, tick_sim rate _ ls hrun, ?_, ?_⟩
    · intro hsf hsome
      obtain ⟨f, hf⟩ := Option.isSome_iff_exists.mp hsome
      cases sf
      · simp at hsf
      · constructor <;> simp [tick, hrun, hf]
    · intro hnone
      cases sf <;> constructor <;> simp [tick, hrun, hnone]
  · simp at hstop

/-- Witness for C8: a failing send on the first tick at rate 1. -/
theorem C8_witness :
    (initLoop.running = true) ∧ ((⟨noiseZero, true, false⟩ : TickEnv).stopRequested = false) ∧
    ((tick 1 ⟨noiseZero, true, false⟩ initLoop).running = true ∧
      (tick 1 ⟨noiseZero, true, false⟩ initLoop).sim = updateState 1 initLoop.sim ∧
      ((⟨noiseZero, true, false⟩ : TickEnv).sendFails = true →
        (_send_telemetry (_generate_telemetry initBaseline initLoop.sim
            (⟨noiseZero, true, false⟩ : TickEnv).noise)).isSome →
          (tick 1 ⟨noiseZero, true, false⟩ initLoop).reports =
            initLoop.reports ++ [Report.transmissionError] ∧
          (tick 1 ⟨noiseZero, true, false⟩ initLoop).sent = initLoop.sent) ∧
      (_send_telemetry (_generate_telemetry initBaseline initLoop.sim
          (⟨noiseZero, true, false⟩ : TickEnv).noise) = none →
        (tick 1 ⟨noiseZero, true, false⟩ initLoop).reports =
          initLoop.reports ++ [Report.encodingError] ∧
        (tick 1 ⟨noiseZero, true, false⟩ initLoop).sent = initLoop.sent)) :=
  ⟨rfl, rfl, C8_failures_reported_not_fatal 1 ⟨noiseZero, true, false⟩ initLoop rfl rfl⟩

/-- C9: If a stop request arrives mid-tick (after that tick's send,
before the next sleep completes), no further datagram is ever
transmitted after the stop takes effect, and the transmission channel
(socket) is closed before control returns: from the first iteration
after the stop onward the list of sent datagrams never grows, the loop
is stopped and the socket is closed. -/
theorem C9_stop_no_further_datagrams (rate : ℝ) (env : ℕ → TickEnv) (k : ℕ)
    (hstop : (env k).stopRequested = true) :
    ∀ m, k + 1 ≤ m →
      (run rate env m).sent = (run rate env (k + 1)).sent ∧
      (run rate env m).running = false ∧
      (run rate env m).socketOpen = false := by
  have hk1 : (run rate env (k + 1)).running = false := by
    by_cases hr : (run rate env k).running = true
    · exact (tick_stop_fields rate (env k) _ hr hstop).1
    · have hr2 : (run rate env k).running = false := Bool.not_eq_true _ |>.mp hr
      show (tick rate (env k) (run rate env k)).running = false
      rw [tick_not_running _ _ _ hr2]
      exact hr2
  intro m hm
  have heq := run_stable rate env (k + 1) hk1 m hm
  rw [heq]
  exact ⟨rfl, hk1, run_closed_of_stopped rate env (k + 1) hk1⟩

/-- Witness for C9: stop requested on the very first tick; two
iterations later nothing further was sent and the socket is closed. -/
theorem C9_witness :
    ((fun _ : ℕ => (⟨noiseZero, false, true⟩ : TickEnv)) 0).stopRequested = true ∧
    (0 + 1 ≤ 2 ∧
      (run 1 (fun _ => ⟨noiseZero, false, true⟩) 2).sent =
        (run 1 (fun _ => ⟨noiseZero, false, true⟩) (0 + 1)).sent ∧
      (run 1 (fun _ => ⟨noiseZero, false, true⟩) 2).running = false ∧
      (run 1 (fun _ => ⟨noiseZero, false, true⟩) 2).socketOpen = false) :=
  ⟨rfl, by norm_num,
    (C9_stop_no_further_datagrams 1 (fun _ => ⟨noiseZero, false, true⟩) 0 rfl
      2 (by norm_num)).1,
    (C9_stop_no_further_datagrams 1 (fun _ => ⟨noiseZero, false, true⟩) 0 rfl
      2 (by norm_num)).2.1,
    (C9_stop_no_further_datagrams 1 (fun _ => ⟨noiseZero, false, true⟩) 0 rfl
      2 (by norm_num)).2.2⟩

lemma i16_pyInt {r : ℝ} (h1 : -32767 ≤ r) (h2 : r ≤ 32767) : i16 (pyInt r) := by
  have hl : (-32767 : ℤ) ≤ pyInt r := le_pyInt (by exact_mod_cast h1)
  have hu : pyInt r ≤ 32767 := pyInt_le (by exact_mod_cast h2)
  unfold i16
  norm_num
  omega

lemma i32_pyInt {r : ℝ} (h1 : -2147483647 ≤ r) (h2 : r ≤ 2147483647) :
    i32 (pyInt r) := by
  have hl : (-2147483647 : ℤ) ≤ pyInt r := le_pyInt (by exact_mod_cast h1)
  have hu : pyInt r ≤ 2147483647 := pyInt_le (by exact_mod_cast h2)
  unfold i32
  norm_num
  omega

lemma u8_pyInt {r : ℝ} (h1 : 0 ≤ r) (h2 : r ≤ 255) : u8 (pyInt r) := by
  have hl : (0 : ℤ) ≤ pyInt r := le_pyInt (by exact_mod_cast h1)
  have hu : pyInt r ≤ 255 := pyInt_le (by exact_mod_cast h2)
  unfold u8
  norm_num
  omega

lemma u16_pyInt {r : ℝ} (h1 : 0 ≤ r) (h2 : r ≤ 65535) : u16 (pyInt r) := by
  have hl : (0 : ℤ) ≤ pyInt r := le_pyInt (by exact_mod_cast h1)
  have hu : pyInt r ≤ 65535 := pyInt_le (by exact_mod_cast h2)
  unfold u16
  norm_num
  omega

lemma u32_pyInt {r : ℝ} (h1 : 0 ≤ r) (h2 : r ≤ 4294967295) : u32 (pyInt r) := by
  have hl : (0 : ℤ) ≤ pyInt r := le_pyInt (by exact_mod_cast h1)
  have hu : pyInt r ≤ 4294967295 := pyInt_le (by exact_mod_cast h2)
  unfold u32
  norm_num
  omega

lemma u8_zero_one (c : Prop) [Decidable c] : u8 (if c then 1 else 0) := by
  unfold u8
  split_ifs <;> norm_num

set_option maxHeartbeats 2000000 in
/-- Whenever every Gaussian draw has absolute value at most 30 and the
uniform/Bernoulli draws stay in their supports, every numeric field of
the generated sample is in its declared range — at every simulation
state. -/
lemma inRange_of_bounded (s : SimState) (n : Noise)
    (hsup : NoiseSupport n) (hg : GaussBounded n 30) :
    InRange (_generate_telemetry initBaseline s n) := by
  obtain ⟨hs1, hs2, hs3, hs4, hs5, hs6, hs7, hs8, hs9, hs10⟩ := hsup
  obtain ⟨g1, g2, g3, g4, g5, g6, g7, g8, g9, g10, g11, g12, g13, g14⟩ := hg
  rw [abs_le] at g1 g2 g3 g4 g5 g6 g7 g8 g9 g10 g11 g12 g13 g14
  obtain ⟨g1a, g1b⟩ := g1
  obtain ⟨g2a, g2b⟩ := g2
  obtain ⟨g3a, g3b⟩ := g3
  obtain ⟨g4a, g4b⟩ := g4
  obtain ⟨g5a, g5b⟩ := g5
  obtain ⟨g6a, g6b⟩ := g6
  obtain ⟨g7a, g7b⟩ := g7
  obtain ⟨g8a, g8b⟩ := g8
  obtain ⟨g9a, g9b⟩ := g9
  obtain ⟨g10a, g10b⟩ := g10
  obtain ⟨g11a, g11b⟩ := g11
  obtain ⟨g12a, g12b⟩ := g12
  obtain ⟨g13a, g13b⟩ := g13
  obtain ⟨g14a, g14b⟩ := g14
  show
    i16 (pyInt (Real.sin s.orbit_phase * 10 + n.g_gyr_x * 100)) ∧
    i16 (pyInt (Real.cos s.orbit_phase * 8 + n.g_gyr_y * 100)) ∧
    i16 (pyInt (n.g_gyr_z * 100)) ∧
    i16 (pyInt (n.g_acc_x * 1000)) ∧
    i16 (pyInt (n.g_acc_y * 1000)) ∧
    i16 (pyInt (n.g_acc_z * 1000)) ∧
    i16 (pyInt (-10 + 15 * Real.sin s.thermal_cycle + n.g_icm_temp * 10)) ∧
    i32 (pyInt (-25000 + 5000 * Real.sin s.orbit_phase)) ∧
    i32 (pyInt (15000 + 3000 * Real.cos s.orbit_phase)) ∧
    i32 (pyInt (45000 + 2000 * Real.sin (s.orbit_phase * 0.7))) ∧
    i16 (pyInt (-5 + 10 * Real.sin (s.thermal_cycle + 0.5) + n.g_mmc_temp * 10)) ∧
    u32 (pyInt ((1000 : ℝ) *
      (1.0 + 0.3 * Real.sin (s.orbit_phase * 2)) + n.g_dose_serial)) ∧
    u32 (pyInt ((1000 : ℝ) *
      (1.0 + 0.3 * Real.sin (s.orbit_phase * 2)) * 0.9 + n.g_dose_sen1)) ∧
    u32 (pyInt ((1000 : ℝ) *
      (1.0 + 0.3 * Real.sin (s.orbit_phase * 2)) * 1.1 + n.g_dose_sen2)) ∧
    u32 (pyInt (100 + 20 * Real.sin (s.orbit_phase * 3))) ∧
    u32 (pyInt (95 + 18 * Real.sin (s.orbit_phase * 3 + 0.2))) ∧
    u32 (pyInt (105 + 22 * Real.sin (s.orbit_phase * 3 + 0.4))) ∧
    i16 (pyInt (20 + 5 * Real.sin (s.thermal_cycle + 1.0) + n.g_rdn_temp * 10)) ∧
    i16 (pyInt (3300 + n.g_rdn_vdd)) ∧
    u8 (pyInt n.u_encoder) ∧
    u8 (if n.r_hall > 0.9 then 1 else 0) ∧
    u8 (if n.r_reflective > 0.95 then 1 else 0) ∧
    u16 (pyInt (1000 + 500 * Real.sin s.orbit_phase + n.g_light))
  refine ⟨?_, ?_, ?_, ?_, ?_, ?_, ?_, ?_, ?_, ?_, ?_, ?_, ?_, ?_, ?_, ?_, ?_,
    ?_, ?_, ?_, ?_, ?_, ?_⟩
  · exact i16_pyInt
      (by linarith [Real.neg_one_le_sin s.orbit_phase, Real.sin_le_one s.orbit_phase])
      (by linarith [Real.neg_one_le_sin s.orbit_phase, Real.sin_le_one s.orbit_phase])
  · exact i16_pyInt
      (by linarith [Real.neg_one_le_cos s.orbit_phase, Real.cos_le_one s.orbit_phase])
      (by linarith [Real.neg_one_le_cos s.orbit_phase, Real.cos_le_one s.orbit_phase])
  · exact i16_pyInt (by linarith) (by linarith)
  · exact i16_pyInt (by linarith) (by linarith)
  · exact i16_pyInt (by linarith) (by linarith)
  · exact i16_pyInt (by linarith) (by linarith)
  · exact i16_pyInt
      (by linarith [Real.neg_one_le_sin s.thermal_cycle, Real.sin_le_one s.thermal_cycle])
      (by linarith [Real.neg_one_le_sin s.thermal_cycle, Real.sin_le_one s.thermal_cycle])
  · exact i32_pyInt
      (by linarith [Real.neg_one_le_sin s.orbit_phase, Real.sin_le_one s.orbit_phase])
      (by linarith [Real.neg_one_le_sin s.orbit_phase, Real.sin_le_one s.orbit_phase])
  · exact i32_pyInt
      (by linarith [Real.neg_one_le_cos s.orbit_phase, Real.cos_le_one s.orbit_phase])
      (by linarith [Real.neg_one_le_cos s.orbit_phase, Real.cos_le_one s.orbit_phase])
  · exact i32_pyInt
      (by linarith [Real.neg_one_le_sin (s.orbit_phase * 0.7),
        Real.sin_le_one (s.orbit_phase * 0.7)])
      (by linarith [Real.neg_one_le_sin (s.orbit_phase * 0.7),
        Real.sin_le_one (s.orbit_phase * 0.7)])
  · exact i16_pyInt
      (by linarith [Real.neg_one_le_sin (s.thermal_cycle + 0.5),
        Real.sin_le_one (s.thermal_cycle + 0.5)])
      (by linarith [Real.neg_one_le_sin (s.thermal_cycle + 0.5),
        Real.sin_le_one (s.thermal_cycle + 0.5)])
  · exact u32_pyInt
      (by linarith [Real.neg_one_le_sin (s.orbit_phase * 2),
        Real.sin_le_one (s.orbit_phase * 2)])
      (by linarith [Real.neg_one_le_sin (s.orbit_phase * 2),
        Real.sin_le_one (s.orbit_phase * 2)])
  · exact u32_pyInt
      (by linarith [Real.neg_one_le_sin (s.orbit_phase * 2),
        Real.sin_le_one (s.orbit_phase * 2)])
      (by linarith [Real.neg_one_le_sin (s.orbit_phase * 2),
        Real.sin_le_one (s.orbit_phase * 2)])
  · exact u32_pyInt
      (by linarith [Real.neg_one_le_sin (s.orbit_phase * 2),
        Real.sin_le_one (s.orbit_phase * 2)])
      (by linarith [Real.neg_one_le_sin (s.orbit_phase * 2),
        Real.sin_le_one (s.orbit_phase * 2)])
  · exact u32_pyInt
      (by linarith [Real.neg_one_le_sin (s.orbit_phase * 3),
        Real.sin_le_one (s.orbit_phase * 3)])
      (by linarith [Real.neg_one_le_sin (s.orbit_phase * 3),
        Real.sin_le_one (s.orbit_phase * 3)])
  · exact u32_pyInt
      (by linarith [Real.neg_one_le_sin (s.orbit_phase * 3 + 0.2),
        Real.sin_le_one (s.orbit_phase * 3 + 0.2)])
      (by linarith [Real.neg_one_le_sin (s.orbit_phase * 3 + 0.2),
        Real.sin_le_one (s.orbit_phase * 3 + 0.2)])
  · exact u32_pyInt
      (by linarith [Real.neg_one_le_sin (s.orbit_phase * 3 + 0.4),
        Real.sin_le_one (s.orbit_phase * 3 + 0.4)])
      (by linarith [Real.neg_one_le_sin (s.orbit_phase * 3 + 0.4),
        Real.sin_le_one (s.orbit_phase * 3 + 0.4)])
  · exact i16_pyInt
      (by linarith [Real.neg_one_le_sin (s.thermal_cycle + 1.0),
        Real.sin_le_one (s.thermal_cycle + 1.0)])
      (by linarith [Real.neg_one_le_sin (s.thermal_cycle + 1.0),
        Real.sin_le_one (s.thermal_cycle + 1.0)])
  · exact i16_pyInt (by linarith) (by linarith)
  · exact u8_pyInt (by linarith) (by linarith)
  · exact u8_zero_one _
  · exact u8_zero_one _
  · exact u16_pyInt
      (by linarith [Real.neg_one_le_sin s.orbit_phase, Real.sin_le_one s.orbit_phase])
      (by linarith [Real.neg_one_le_sin s.orbit_phase, Real.sin_le_one s.orbit_phase])

/-- C7 counterexample: the claim "for every simulation state and every
outcome of the internal random source, every numeric field of the
produced TelemetrySample is representable in its declared bit width" is
false: the Gaussian draws are unbounded, and at the initial state the
support-valid outcome whose supply-voltage draw is 50000 yields
`rdn_vdd = 53300`, outside the signed 16-bit range, so the sample is out
of range. -/
theorem C7_counterexample :
    NoiseSupport noiseVddBig ∧
      (_generate_telemetry initBaseline initState noiseVddBig).rdn_vdd = 53300 ∧
      ¬ InRange (_generate_telemetry initBaseline initState noiseVddBig) := by
  have hvdd : (_generate_telemetry initBaseline initState noiseVddBig).rdn_vdd = 53300 := by
    show pyInt (3300 + noiseVddBig.g_rdn_vdd) = 53300
    rw [show (3300 : ℝ) + noiseVddBig.g_rdn_vdd = ((53300 : ℤ) : ℝ) by
      norm_num [noiseVddBig, noiseZero]]
    exact pyInt_intCast 53300
  refine ⟨noiseSupport_noiseZero, hvdd, fun h => ?_⟩
  have hv := h.2.2.2.2.2.2.2.2.2.2.2.2.2.2.2.2.2.2.1
  rw [hvdd] at hv
  have := hv.2
  norm_num at this

/-- C7 amended: for every simulation state and every outcome of the
internal random source whose Gaussian draws all have absolute value at
most 30, the TelemetrySample produced by the Model has every numeric
field representable in its declared bit width and signedness after
truncation toward zero to integer; no invalid sample is constructed
under those bounds. -/
theorem C7_amended_inRange_of_bounded_noise (s : SimState) (n : Noise)
    (hsup : NoiseSupport n) (hg : GaussBounded n 30) :
    InRange (_generate_telemetry initBaseline s n) :=
  inRange_of_bounded s n hsup hg

lemma gaussBounded_noiseZero : GaussBounded noiseZero 30 := by
  refine ⟨?_, ?_, ?_, ?_, ?_, ?_, ?_, ?_, ?_, ?_, ?_, ?_, ?_, ?_⟩ <;>
    norm_num [noiseZero]

/-- Witness for the amended C7 at the initial state with the all-zero
outcome. -/
theorem C7_amended_witness :
    NoiseSupport noiseZero ∧ GaussBounded noiseZero 30 ∧
      InRange (_generate_telemetry initBaseline initState noiseZero) :=
  ⟨noiseSupport_noiseZero, gaussBounded_noiseZero,
    C7_amended_inRange_of_bounded_noise initState noiseZero
      noiseSupport_noiseZero gaussBounded_noiseZero⟩

/-- A successful tick (running, no stop, no send failure, sample in
range) appends exactly one datagram, built from the sample generated
from the PRE-advance state, and then advances the state. -/
lemma tick_success (rate : ℝ) (e : TickEnv) (ls : LoopState)
    (hrun : ls.running = true) (hstop : e.stopRequested = false)
    (hfail : e.sendFails = false)
    (hin : InRange (_generate_telemetry initBaseline ls.sim e.noise)) :
    tick rate e ls =
      { ls with
        sim := updateState rate ls.sim
        sent := ls.sent ++ [FRAME_START_SYMBOL :: TELEMETRY_FRAME ::
          (sampleChunks (_generate_telemetry initBaseline ls.sim e.noise)).flatten] } := by
  obtain ⟨nz, sf, st⟩ := e
  simp only at hstop hfail hin
  subst hstop hfail
  simp [tick, hrun, send_of_inRange hin]

lemma tickSpecOrder_success (rate : ℝ) (e : TickEnv) (ls : LoopState)
    (hrun : ls.running = true) (hstop : e.stopRequested = false)
    (hfail : e.sendFails = false)
    (hin : InRange (_generate_telemetry initBaseline (updateState rate ls.sim) e.noise)) :
    tickSpecOrder rate e ls =
      { ls with
        sim := updateState rate ls.sim
        sent := ls.sent ++ [FRAME_START_SYMBOL :: TELEMETRY_FRAME ::
          (sampleChunks (_generate_telemetry initBaseline
            (updateState rate ls.sim) e.noise)).flatten] } := by
  obtain ⟨nz, sf, st⟩ := e
  simp only at hstop hfail hin
  subst hstop hfail
  simp [tickSpecOrder, hrun, send_of_inRange hin]

/-- `pyInt` of a real bounded between consecutive integers. -/
lemma pyInt_eq_of_bounds {r : ℝ} {m : ℤ} (h0 : 0 ≤ r) (h1 : (m : ℝ) ≤ r)
    (h2 : r < m + 1) : pyInt r = m := by
  unfold pyInt
  rw [if_pos h0, Int.floor_eq_iff]
  exact ⟨h1, h2⟩

lemma magz_init :
    (_generate_telemetry initBaseline initLoop.sim noiseZero).mmc_mag_z = 45000 := by
  show pyInt (45000 + 2000 * Real.sin (initLoop.sim.orbit_phase * 0.7)) = 45000
  rw [show initLoop.sim.orbit_phase * 0.7 = (0 : ℝ) by
    norm_num [initLoop, initState]]
  rw [Real.sin_zero, show (45000 : ℝ) + 2000 * 0 = ((45000 : ℤ) : ℝ) by norm_num]
  exact pyInt_intCast _

lemma magz_next :
    (_generate_telemetry initBaseline (updateState 1 initLoop.sim) noiseZero).mmc_mag_z =
      45013 := by
  show pyInt (45000 + 2000 * Real.sin ((updateState 1 initLoop.sim).orbit_phase * 0.7)) =
    45013
  rw [show (updateState 1 initLoop.sim).orbit_phase * 0.7 = (0.007 : ℝ) by
    norm_num [updateState, initLoop, initState]]
  have hup : Real.sin 0.007 < 0.007 := Real.sin_lt (by norm_num)
  have hlo : (0.007 : ℝ) - 0.007 ^ 3 / 4 < Real.sin 0.007 :=
    Real.sin_gt_sub_cube (by norm_num) (by norm_num)
  apply pyInt_eq_of_bounds
  · norm_num
    linarith
  · push_cast
    linarith
  · push_cast
    linarith

/-- C3 counterexample: the claim "within every tick of the driver loop,
first simulated time and the phase accumulators are advanced, then the
Model is invoked to produce the sample, then the sample is encoded and
transmitted" is false on the code: on the very first tick with the
all-zero random outcome, the code's tick (generate from the current
state, then advance) and the spec-ordered tick (advance, then generate)
produce different loop states — the transmitted magnetometer-z bytes
decode to 45000 (the pre-advance state's value) rather than 45013 (the
advanced state's value). -/
theorem C3_counterexample :
    tick 1 ⟨noiseZero, false, false⟩ initLoop ≠
      tickSpecOrder 1 ⟨noiseZero, false, false⟩ initLoop := by
  have hin0 : InRange (_generate_telemetry initBaseline initLoop.sim noiseZero) :=
    inRange_of_bounded _ _ noiseSupport_noiseZero gaussBounded_noiseZero
  have hin1 : InRange (_generate_telemetry initBaseline
      (updateState 1 initLoop.sim) noiseZero) :=
    inRange_of_bounded _ _ noiseSupport_noiseZero gaussBounded_noiseZero
  intro h
  rw [tick_success 1 _ initLoop rfl rfl rfl hin0,
    tickSpecOrder_success 1 _ initLoop rfl rfl rfl hin1] at h
  have hsent := congrArg LoopState.sent h
  simp only [initLoop, List.nil_append, List.cons.injEq, and_true] at hsent
  have hd := congrArg
    (fun p => decodeS (FRAME_START_SYMBOL :: TELEMETRY_FRAME :: p) 24 4) hsent.2.2
  have hmz0 : i32 (_generate_telemetry initBaseline initLoop.sim noiseZero).mmc_mag_z :=
    hin0.2.2.2.2.2.2.2.2.2.1
  have hmz1 : i32 (_generate_telemetry initBaseline
      (updateState 1 initLoop.sim) noiseZero).mmc_mag_z :=
    hin1.2.2.2.2.2.2.2.2.2.1
  have r0 : decodeS (FRAME_START_SYMBOL :: TELEMETRY_FRAME ::
      (sampleChunks (_generate_telemetry initBaseline initLoop.sim
        noiseZero)).flatten) 24 4 =
      (_generate_telemetry initBaseline initLoop.sim noiseZero).mmc_mag_z :=
    decodeS_recover (by norm_num) hmz0.1 hmz0.2 rfl
  have r1 : decodeS (FRAME_START_SYMBOL :: TELEMETRY_FRAME ::
      (sampleChunks (_generate_telemetry initBaseline
        (updateState 1 initLoop.sim) noiseZero)).flatten) 24 4 =
      (_generate_telemetry initBaseline
        (updateState 1 initLoop.sim) noiseZero).mmc_mag_z :=
    decodeS_recover (by norm_num) hmz1.1 hmz1.2 rfl
  have v0 := r0.trans magz_init
  have v1 := r1.trans magz_next
  have : (45000 : ℤ) = 45013 := v0.symm.trans (hd.trans v1)
  norm_num at this

/-- C3 amended: within every tick the sample is generated from the
CURRENT (pre-advance) state and sent first, and only then are simulated
time and the phase accumulators advanced (the sleep follows).  Over a
run with no stop requests, no send failures and in-range samples, the
k-th transmitted datagram carries the sample of the state advanced k
times — not k+1 times. -/
theorem C3_amended_send_then_advance (rate : ℝ) (env : ℕ → TickEnv)
    (hstop : ∀ j, (env j).stopRequested = false)
    (hfail : ∀ j, (env j).sendFails = false)
    (hin : ∀ j, InRange (_generate_telemetry initBaseline (stateIter rate j)
      ((env j).noise))) :
    ∀ n, (run rate env n).sim = stateIter rate n ∧
      (run rate env n).running = true ∧
      (run rate env n).sent = (List.range n).map (fun k =>
        FRAME_START_SYMBOL :: TELEMETRY_FRAME ::
          (sampleChunks (_generate_telemetry initBaseline (stateIter rate k)
            ((env k).noise))).flatten) := by
  intro n
  induction n with
  | zero => exact ⟨rfl, rfl, rfl⟩
  | succ n ih =>
    obtain ⟨ihs, ihr, ihsent⟩ := ih
    have hins : InRange (_generate_telemetry initBaseline ((run rate env n).sim)
        ((env n).noise)) := by
      rw [ihs]
      exact hin n
    have hstep : run rate env (n + 1) = tick rate (env n) (run rate env n) := rfl
    rw [hstep, tick_success rate (env n) _ ihr (hstop n) (hfail n) hins]
    refine ⟨?_, ihr, ?_⟩
    · show updateState rate (run rate env n).sim = stateIter rate (n + 1)
      rw [ihs]
      rfl
    · show (run rate env n).sent ++ _ = _
      rw [ihsent, ihs, List.range_succ, List.map_append]
      rfl

/-- Witness for the amended C3: one tick at rate 1 with the all-zero
outcome. -/
theorem C3_amended_witness :
    (∀ j, ((fun _ : ℕ => (⟨noiseZero, false, false⟩ : TickEnv)) j).stopRequested = false) ∧
    (∀ j, ((fun _ : ℕ => (⟨noiseZero, false, false⟩ : TickEnv)) j).sendFails = false) ∧
    (∀ j, InRange (_generate_telemetry initBaseline (stateIter 1 j)
      (((fun _ : ℕ => (⟨noiseZero, false, false⟩ : TickEnv)) j).noise))) ∧
    ((run 1 (fun _ => ⟨noiseZero, false, false⟩) 1).sim = stateIter 1 1 ∧
      (run 1 (fun _ => ⟨noiseZero, false, false⟩) 1).running = true ∧
      (run 1 (fun _ => ⟨noiseZero, false, false⟩) 1).sent = (List.range 1).map (fun k =>
        FRAME_START_SYMBOL :: TELEMETRY_FRAME ::
          (sampleChunks (_generate_telemetry initBaseline (stateIter 1 k)
            (((fun _ : ℕ => (⟨noiseZero, false, false⟩ : TickEnv)) k).noise))).flatten)) :=
  ⟨fun _ => rfl, fun _ => rfl,
    fun _ => inRange_of_bounded _ _ noiseSupport_noiseZero gaussBounded_noiseZero,
    C3_amended_send_then_advance 1 (fun _ => ⟨noiseZero, false, false⟩)
      (fun _ => rfl) (fun _ => rfl)
      (fun _ => inRange_of_bounded _ _ noiseSupport_noiseZero gaussBounded_noiseZero) 1⟩

lemma sqrt_two_bounds : (1.4 : ℝ) < Real.sqrt 2 ∧ Real.sqrt 2 < 1.5 := by
  have hs : Real.sqrt 2 ^ 2 = 2 := Real.sq_sqrt (by norm_num)
  have hnn : (0 : ℝ) ≤ Real.sqrt 2 := Real.sqrt_nonneg 2
  constructor <;> nlinarith [hs, hnn]

/-- C2 counterexample: the claim "the three radiation dose channels and
the three radiation intensity channels are all scaled by the same
multiplicative radiation-belt factor derived from sin(2*orbit_phase)"
is false for the intensity channels: at orbit phase π/4 the belt factor
is 1.3, the code's serial intensity is 114, but the belt-scaled
intensity would be 148. -/
theorem C2_counterexample :
    (_generate_telemetry initBaseline ⟨0, Real.pi / 4, 0⟩ noiseZero).rdn_serial_intensity =
      114 ∧
    beltIntensitySerial ⟨0, Real.pi / 4, 0⟩ = 148 ∧
    (_generate_telemetry initBaseline ⟨0, Real.pi / 4, 0⟩ noiseZero).rdn_serial_intensity ≠
      beltIntensitySerial ⟨0, Real.pi / 4, 0⟩ := by
  have hs : Real.sqrt 2 ^ 2 = 2 := Real.sq_sqrt (by norm_num)
  have hnn : (0 : ℝ) ≤ Real.sqrt 2 := Real.sqrt_nonneg 2
  have hb := sqrt_two_bounds
  have h1 : (_generate_telemetry initBaseline ⟨0, Real.pi / 4, 0⟩
      noiseZero).rdn_serial_intensity = 114 := by
    show pyInt (100 + 20 * Real.sin (Real.pi / 4 * 3)) = 114
    rw [show Real.pi / 4 * 3 = Real.pi - Real.pi / 4 by ring, Real.sin_pi_sub,
      Real.sin_pi_div_four]
    apply pyInt_eq_of_bounds
    · nlinarith [hb.1]
    · push_cast
      nlinarith [hb.1]
    · push_cast
      nlinarith [hb.2]
  have h2 : beltIntensitySerial ⟨0, Real.pi / 4, 0⟩ = 148 := by
    show pyInt ((1.0 + 0.3 * Real.sin (2 * (Real.pi / 4))) *
      (100 + 20 * Real.sin (3 * (Real.pi / 4)))) = 148
    rw [show 2 * (Real.pi / 4) = Real.pi / 2 by ring, Real.sin_pi_div_two,
      show 3 * (Real.pi / 4) = Real.pi - Real.pi / 4 by ring, Real.sin_pi_sub,
      Real.sin_pi_div_four]
    apply pyInt_eq_of_bounds
    · nlinarith [hb.1]
    · push_cast
      nlinarith [hs, hnn]
    · push_cast
      nlinarith [hs, hnn]
  refine ⟨h1, h2, ?_⟩
  rw [h1, h2]
  norm_num

/-- C2 amended: the three radiation dose channels share the common
multiplicative radiation-belt factor derived from sin(2*orbit_phase),
applied before the per-sensor scalings 0.9/1.1 and the additive
Gaussian noise; the three radiation intensity channels do NOT carry the
belt factor — they are pure sinusoids of 3*orbit_phase with per-sensor
bases, amplitudes and phase offsets. -/
theorem C2_amended_belt_factor_doses_only (s : SimState) (n : Noise) :
    ((_generate_telemetry initBaseline s n).rdn_serial_dose =
        pyInt (1000 * beltFactor s + n.g_dose_serial) ∧
      (_generate_telemetry initBaseline s n).rdn_sen1_dose =
        pyInt (1000 * beltFactor s * 0.9 + n.g_dose_sen1) ∧
      (_generate_telemetry initBaseline s n).rdn_sen2_dose =
        pyInt (1000 * beltFactor s * 1.1 + n.g_dose_sen2)) ∧
    ((_generate_telemetry initBaseline s n).rdn_serial_intensity =
        pyInt (100 + 20 * Real.sin (3 * s.orbit_phase)) ∧
      (_generate_telemetry initBaseline s n).rdn_sen1_intensity =
        pyInt (95 + 18 * Real.sin (3 * s.orbit_phase + 0.2)) ∧
      (_generate_telemetry initBaseline s n).rdn_sen2_intensity =
        pyInt (105 + 22 * Real.sin (3 * s.orbit_phase + 0.4))) := by
  have hsin2 : Real.sin (s.orbit_phase * 2) = Real.sin (2 * s.orbit_phase) := by
    rw [mul_comm]
  have hsin3 : Real.sin (s.orbit_phase * 3) = Real.sin (3 * s.orbit_phase) := by
    rw [mul_comm]
  have hsin32 : Real.sin (s.orbit_phase * 3 + 0.2) =
      Real.sin (3 * s.orbit_phase + 0.2) := by
    rw [mul_comm]
  have hsin34 : Real.sin (s.orbit_phase * 3 + 0.4) =
      Real.sin (3 * s.orbit_phase + 0.4) := by
    rw [mul_comm]
  refine ⟨⟨?_, ?_, ?_⟩, ?_, ?_, ?_⟩
  · show pyInt ((1000 : ℝ) * (1.0 + 0.3 * Real.sin (s.orbit_phase * 2)) +
      n.g_dose_serial) = _
    rw [hsin2]
    rfl
  · show pyInt ((1000 : ℝ) * (1.0 + 0.3 * Real.sin (s.orbit_phase * 2)) * 0.9 +
      n.g_dose_sen1) = _
    rw [hsin2]
    rfl
  · show pyInt ((1000 : ℝ) * (1.0 + 0.3 * Real.sin (s.orbit_phase * 2)) * 1.1 +
      n.g_dose_sen2) = _
    rw [hsin2]
    rfl
  · show pyInt (100 + 20 * Real.sin (s.orbit_phase * 3)) = _
    rw [hsin3]
  · show pyInt (95 + 18 * Real.sin (s.orbit_phase * 3 + 0.2)) = _
    rw [hsin32]
  · show pyInt (105 + 22 * Real.sin (s.orbit_phase * 3 + 0.4)) = _
    rw [hsin34]

end LunarSim
